import Mathlib

/-!
Verification of the loan-tracker backend's loan admission logic
(`create_loan` in `main.py`, schemas in `schemas.py`).

The embedding models:
- BSON ObjectId parsing (`ObjectId(s)` accepts exactly 24-character hex
  strings when given a `str`; anything else raises `InvalidId`);
- the document store as association data: a list of customer ObjectId
  strings and a list of (ObjectId string, partner document) pairs, where a
  partner document may or may not carry a `commission_rate` field
  (other partner fields do not influence loan admission);
- Python `round(x, 2)` as round-half-to-even at two decimal places over ℚ;
- the `create_loan` handler, including its `try`/`except Exception`
  structure (note that the `HTTPException` raised on a not-found reference
  is itself caught by the enclosing `except Exception` clause);
- pydantic validation of the `Loan` schema (`amount` must satisfy `gt=0`,
  `status` must be one of the five literals, `commission_amount` must
  satisfy `ge=0` when present), running before the handler body.

`datetime.utcnow().date()` is modelled by passing the current date
`today` as an explicit argument. The persisted document (the `data` dict
handed to `create_document`) is the value a successful run returns.
-/

set_option autoImplicit false
set_option maxRecDepth 40000

namespace LoanTracker

/-- Calendar date, standing in for Python `datetime.date` values.
Any `date` object is truthy in Python, so only `None` is falsy for the
optional date fields. -/
structure PyDate where
  year : Nat
  month : Nat
  day : Nat
deriving DecidableEq, Repr

/-- The five loan status literals of the `Loan` schema. -/
inductive LoanStatus where
  | applied
  | approved
  | funded
  | rejected
  | closed
deriving DecidableEq, Repr

/-- Hex digit test used by BSON ObjectId validation. -/
def isHexDigit (c : Char) : Bool :=
  c.isDigit || (('a' ≤ c) && (c ≤ 'f')) || (('A' ≤ c) && (c ≤ 'F'))

/-- `bson.ObjectId(s)` succeeds on a `str` exactly when it is a
24-character hexadecimal string. -/
def isValidObjectId (s : String) : Bool :=
  s.length == 24 && s.toList.all isHexDigit

/-- `ObjectId(s)` as a partial parse: `some s` when valid, `none` when the
constructor raises `InvalidId`. -/
def objectIdParse (s : String) : Option String :=
  if isValidObjectId s then some s else none

/-- The slice of a stored partner document that loan admission reads:
whether the document carries a `commission_rate` field and, if so, its
numeric value. -/
structure PartnerDoc where
  commission_rate : Option ℚ
deriving DecidableEq, Repr

/-- The document store state visible to `create_loan`: the set of existing
customer ids and the stored partner documents keyed by id. -/
structure DB where
  customers : List String
  partners : List (String × PartnerDoc)
deriving DecidableEq, Repr

/-- `db.customer.find_one({"_id": oid})` reduced to existence. -/
def DB.customerExists (db : DB) (oid : String) : Bool :=
  db.customers.contains oid

/-- `db.partner.find_one({"_id": oid})`. -/
def DB.findPartner (db : DB) (oid : String) : Option PartnerDoc :=
  (db.partners.find? (fun kv => kv.1 == oid)).map (fun kv => kv.2)

/-- A validated `Loan` payload (the result of pydantic validation), which
is also the shape of the dict `payload.model_dump()` produces and of the
persisted loan document. -/
structure Loan where
  customer_id : String
  partner_id : Option String
  amount : ℚ
  status : LoanStatus
  application_date : Option PyDate
  funded_date : Option PyDate
  commission_amount : Option ℚ
deriving DecidableEq, Repr

/-- Errors a request can surface: `badRequest` is an `HTTPException` with
status 400 and the given detail string, `unprocessable` is the pydantic
validation failure (HTTP 422) naming the first offending field, and
`internal` is an uncaught exception (HTTP 500). -/
inductive ApiErr where
  | badRequest (detail : String)
  | unprocessable (field : String)
  | internal
deriving DecidableEq, Repr

/-- Exceptions inside a `try` block: an explicitly raised `HTTPException`
with its detail, or any other `Exception` (e.g. `bson.errors.InvalidId`).
Both are subclasses of `Exception`, so a bare `except Exception` catches
both. -/
inductive PyExc where
  | http (detail : String)
  | generic
deriving DecidableEq, Repr

def invalidCustomerDetail : String :=
  "Invalid customer_id"

def invalidCustomerFormatDetail : String :=
  "Invalid customer_id format"

def invalidPartnerDetail : String :=
  "Invalid partner_id"

def invalidPartnerFormatDetail : String :=
  "Invalid partner_id format"

/-- Body of the customer-reference `try` block: parse the id (raising on
bad format), look the customer up, and raise `HTTPException(400,
"Invalid customer_id")` when absent. -/
def tryCustomerCheck (db : DB) (cid : String) : Except PyExc Unit :=
  match objectIdParse cid with
  | none => Except.error PyExc.generic
  | some oid =>
    if db.customerExists oid then Except.ok ()
    else Except.error (PyExc.http invalidCustomerDetail)

/-- `if payload.customer_id:` guard plus the `try`/`except Exception`
around the customer lookup. Every exception from the body — including the
not-found `HTTPException` — is caught and re-raised as
`HTTPException(400, "Invalid customer_id format")`. -/
def checkCustomer (db : DB) (cid : String) : Except ApiErr Unit :=
  if cid = "" then Except.ok ()
  else
    match tryCustomerCheck db cid with
    | Except.ok _ => Except.ok ()
    | Except.error _ => Except.error (ApiErr.badRequest invalidCustomerFormatDetail)

/-- Body of the partner-reference `try` block, analogous to the customer
check. -/
def tryPartnerCheck (db : DB) (pid : String) : Except PyExc Unit :=
  match objectIdParse pid with
  | none => Except.error PyExc.generic
  | some oid =>
    match db.findPartner oid with
    | some _ => Except.ok ()
    | none => Except.error (PyExc.http invalidPartnerDetail)

/-- `if payload.partner_id:` guard (falsy for `None` and for the empty
string) plus the `try`/`except Exception` around the partner lookup. -/
def checkPartner (db : DB) (pid? : Option String) : Except ApiErr Unit :=
  match pid? with
  | none => Except.ok ()
  | some pid =>
    if pid = "" then Except.ok ()
    else
      match tryPartnerCheck db pid with
      | Except.ok _ => Except.ok ()
      | Except.error _ => Except.error (ApiErr.badRequest invalidPartnerFormatDetail)

/-- Round-half-to-even to an integer, the rounding Python's built-in
`round` uses. -/
def roundHalfEven (x : ℚ) : ℤ :=
  let n := ⌊x⌋
  let frac := x - (n : ℚ)
  if frac < 1 / 2 then n
  else if 1 / 2 < frac then n + 1
  else if n % 2 = 0 then n else n + 1

/-- Python `round(x, 2)`: round-half-to-even at two decimal places. -/
def round2 (x : ℚ) : ℚ :=
  (roundHalfEven (x * 100) : ℚ) / 100

/-- The rate computation of the funded branch:
start from `rate = 0.0`; if `data.get("partner_id")` is truthy, run
`ObjectId` on it (this call sits outside any `try`, so a parse failure
would propagate as an uncaught exception), fetch the partner, and when the
document carries a `commission_rate`, set
`rate = float(p["commission_rate"]) or 0.0`. -/
def fundedRate (db : DB) (pid? : Option String) : Except ApiErr ℚ :=
  match pid? with
  | none => Except.ok 0
  | some pid =>
    if pid = "" then Except.ok 0
    else
      match objectIdParse pid with
      | none => Except.error ApiErr.internal
      | some oid =>
        match db.findPartner oid with
        | none => Except.ok 0
        | some p =>
          match p.commission_rate with
          | none => Except.ok 0
          | some r => Except.ok (if r = 0 then 0 else r)

/-- The `POST /api/loans` handler body after pydantic validation
(`create_loan` in `main.py`): reference checks, then — only when
`status == "funded"` — commission computation and `funded_date`
auto-fill, then persistence. A successful run returns the document handed
to `create_document`. -/
def create_loan (db : DB) (today : PyDate) (payload : Loan) :
    Except ApiErr Loan :=
  match checkCustomer db payload.customer_id with
  | Except.error e => Except.error e
  | Except.ok _ =>
    match checkPartner db payload.partner_id with
    | Except.error e => Except.error e
    | Except.ok _ =>
      if payload.status = LoanStatus.funded then
        match fundedRate db payload.partner_id with
        | Except.error e => Except.error e
        | Except.ok rate =>
          let commission := round2 (payload.amount * rate / 100)
          let data := { payload with commission_amount := some commission }
          Except.ok
            (if data.funded_date = none then { data with funded_date := some today }
             else data)
      else
        Except.ok payload

/-- A loan-creation request body before pydantic validation: `status`
still a raw string, numeric fields unconstrained. -/
structure RawLoan where
  customer_id : String
  partner_id : Option String
  amount : ℚ
  status : String
  application_date : Option PyDate
  funded_date : Option PyDate
  commission_amount : Option ℚ
deriving DecidableEq, Repr

/-- The `Literal["applied", "approved", "funded", "rejected", "closed"]`
validator of the `status` field. -/
def parseStatus (s : String) : Option LoanStatus :=
  if s = "applied" then some LoanStatus.applied
  else if s = "approved" then some LoanStatus.approved
  else if s = "funded" then some LoanStatus.funded
  else if s = "rejected" then some LoanStatus.rejected
  else if s = "closed" then some LoanStatus.closed
  else none

/-- Pydantic validation of the `Loan` schema, reporting the first
offending field in declaration order: `amount` must satisfy `gt=0`,
`status` must be one of the five literals, `commission_amount` must
satisfy `ge=0` when present. -/
def validateLoan (r : RawLoan) : Except String Loan :=
  if r.amount ≤ 0 then Except.error "amount"
  else
    match parseStatus r.status with
    | none => Except.error "status"
    | some st =>
      match r.commission_amount with
      | some c =>
        if c < 0 then Except.error "commission_amount"
        else
          Except.ok
            ⟨r.customer_id, r.partner_id, r.amount, st, r.application_date,
              r.funded_date, some c⟩
      | none =>
        Except.ok
          ⟨r.customer_id, r.partner_id, r.amount, st, r.application_date,
            r.funded_date, none⟩

/-- The full `POST /api/loans` pipeline: FastAPI runs pydantic validation
on the body first (surfacing HTTP 422 naming the offending field), and
only a validated payload reaches `create_loan`. -/
def postLoan (db : DB) (today : PyDate) (raw : RawLoan) :
    Except ApiErr Loan :=
  match validateLoan raw with
  | Except.error f => Except.error (ApiErr.unprocessable f)
  | Except.ok p => create_loan db today p

/-- The rate the funded branch uses, as a pure function (meaningful on
payloads whose partner reference check has passed, where the `ObjectId`
parse cannot fail). -/
def effectiveRate (db : DB) (pid? : Option String) : ℚ :=
  match pid? with
  | none => 0
  | some pid =>
    if pid = "" then 0
    else
      match objectIdParse pid with
      | none => 0
      | some oid =>
        match db.findPartner oid with
        | none => 0
        | some p =>
          match p.commission_rate with
          | none => 0
          | some r => if r = 0 then 0 else r

instance {ε α : Type} [DecidableEq ε] [DecidableEq α] :
    DecidableEq (Except ε α) := fun x y =>
  match x, y with
  | Except.ok a, Except.ok b =>
    if h : a = b then isTrue (by rw [h])
    else isFalse (fun hc => h (Except.ok.inj hc))
  | Except.ok a, Except.error e => isFalse (fun hc => Except.noConfusion hc)
  | Except.error e, Except.ok a => isFalse (fun hc => Except.noConfusion hc)
  | Except.error e, Except.error f =>
    if h : e = f then isTrue (by rw [h])
    else isFalse (fun hc => h (Except.error.inj hc))

/-! ### Concrete sample documents used to exercise the definitions -/

/-- A valid ObjectId present in the customer collection of `sampleDB`. -/
def oidA : String := "0123456789abcdef01234567"

/-- A valid ObjectId keying a partner document with `commission_rate` 5.0. -/
def oidB : String := "0123456789abcdef01234568"

/-- A valid ObjectId keying a partner document without a
`commission_rate` field. -/
def oidC : String := "0123456789abcdef01234569"

/-- A valid ObjectId matching no stored document. -/
def oidMissing : String := "00000000000000000000abcd"

def sampleDB : DB := ⟨[oidA], [(oidB, ⟨some 5⟩), (oidC, ⟨none⟩)]⟩

def sampleToday : PyDate := ⟨2026, 10, 12⟩

/-- Funded loan request: existing customer, partner with rate 5.0,
amount 1000, no dates, no commission supplied. -/
def pFunded : Loan :=
  ⟨oidA, some oidB, 1000, LoanStatus.funded, none, none, none⟩

/-- The document `create_loan` persists for `pFunded`. -/
def fundedDoc : Loan :=
  ⟨oidA, some oidB, 1000, LoanStatus.funded, none, some sampleToday, some 50⟩

/-- Applied loan request that supplies a `commission_amount`. -/
def pAppliedComm : Loan :=
  ⟨oidA, none, 100, LoanStatus.applied, none, none, some 10⟩

/-- Applied loan request whose `customer_id` is the empty string. -/
def pEmptyCust : Loan :=
  ⟨"", none, 100, LoanStatus.applied, none, none, none⟩

/-- Loan request with a malformed (non-hex) `customer_id`. -/
def pBadCust : Loan :=
  ⟨"zzz", none, 100, LoanStatus.applied, none, none, none⟩

/-- Loan request with a well-formed `customer_id` matching no customer. -/
def pMissCust : Loan :=
  ⟨oidMissing, none, 100, LoanStatus.applied, none, none, none⟩

/-- Loan request with an existing customer and a well-formed `partner_id`
matching no partner document. -/
def pMissPartner : Loan :=
  ⟨oidA, some oidMissing, 100, LoanStatus.applied, none, none, none⟩

/-- Funded loan request referencing the partner document that lacks a
`commission_rate` field. -/
def pFundedNoRate : Loan :=
  ⟨oidA, some oidC, 1000, LoanStatus.funded, none, none, none⟩

/-- Raw (pre-validation) loan request with `amount` 0. -/
def rawZeroAmount : RawLoan :=
  ⟨oidA, none, 0, "funded", none, none, none⟩

/-! ### Helper lemmas -/

theorem pyFloatOr_eq (r : ℚ) : (if r = 0 then (0 : ℚ) else r) = r := by
  by_cases h : r = 0 <;> simp [h]

theorem isValidObjectId_ne_empty {s : String} (h : isValidObjectId s = true) :
    s ≠ "" := by
  intro he
  subst he
  simp [isValidObjectId] at h

theorem fundedRate_ok_effectiveRate {db : DB} {pid? : Option String} {r : ℚ}
    (h : fundedRate db pid? = Except.ok r) : effectiveRate db pid? = r := by
  cases pid? with
  | none => simpa [fundedRate, effectiveRate] using h
  | some pid =>
    by_cases he : pid = ""
    · simp [fundedRate, effectiveRate, he] at h ⊢
      exact h
    · simp only [fundedRate, effectiveRate, if_neg he] at h ⊢
      cases hp : objectIdParse pid with
      | none => simp [hp] at h
      | some oid =>
        simp only [hp] at h ⊢
        cases hf : db.findPartner oid with
        | none => simpa [hf] using h
        | some pd =>
          simp only [hf] at h ⊢
          cases hr : pd.commission_rate with
          | none => simpa [hr] using h
          | some r0 => simpa [hr] using h

theorem objectIdParse_some {s oid : String}
    (h : objectIdParse s = some oid) : oid = s := by
  unfold objectIdParse at h
  split at h
  · exact (Option.some.inj h).symm
  · exact Option.noConfusion h

theorem round2_zero : round2 0 = 0 := by
  norm_num [round2, roundHalfEven]

theorem round2_mul_zero (a : ℚ) : round2 (a * 0 / 100) = 0 := by
  rw [mul_zero, zero_div, round2_zero]

/-! ### Claim theorems -/

/-- C5. For every loan created with a status other than "funded", the
stored `commission_amount` and `funded_date` are exactly the values the
caller supplied (possibly absent): the persisted document is the payload
itself. -/
theorem non_funded_passthrough (db : DB) (today : PyDate) (p d : Loan)
    (h : create_loan db today p = Except.ok d)
    (hs : p.status ≠ LoanStatus.funded) :
    d.commission_amount = p.commission_amount ∧
    d.funded_date = p.funded_date := by
  unfold create_loan at h
  split at h
  · exact Except.noConfusion h
  · split at h
    · exact Except.noConfusion h
    · rw [if_neg hs] at h
      cases h
      exact ⟨rfl, rfl⟩

/-- C5 witness: an "applied" request supplying `commission_amount` 10 and
no `funded_date` is stored with exactly those values. -/
theorem non_funded_passthrough_witness :
    create_loan sampleDB sampleToday pAppliedComm = Except.ok pAppliedComm ∧
    pAppliedComm.commission_amount = pAppliedComm.commission_amount ∧
    pAppliedComm.funded_date = pAppliedComm.funded_date := by
  have hOk : create_loan sampleDB sampleToday pAppliedComm =
      Except.ok pAppliedComm := by
    with_unfolding_all decide
  exact ⟨hOk,
    non_funded_passthrough sampleDB sampleToday pAppliedComm pAppliedComm hOk
      (by decide)⟩

/-- C2 counterexample: an "applied" request supplying `commission_amount`
10 is admitted and stored with that commission populated, so a stored
commission does not imply the loan was created as "funded". -/
theorem commission_iff_funded_cex :
    create_loan sampleDB sampleToday pAppliedComm = Except.ok pAppliedComm ∧
    pAppliedComm.status ≠ LoanStatus.funded ∧
    pAppliedComm.commission_amount ≠ none := by
  refine ⟨?_, by decide, by decide⟩
  with_unfolding_all decide

/-- C2 amended: in every document `create_loan` persists, the stored
`commission_amount` is populated iff the loan was created with status
"funded" or the caller supplied a `commission_amount` themselves. -/
theorem commission_populated_iff_funded_or_supplied
    (db : DB) (today : PyDate) (p d : Loan)
    (h : create_loan db today p = Except.ok d) :
    (d.commission_amount ≠ none) ↔
      (p.status = LoanStatus.funded ∨ p.commission_amount ≠ none) := by
  unfold create_loan at h
  split at h
  · exact Except.noConfusion h
  · split at h
    · exact Except.noConfusion h
    · by_cases hs : p.status = LoanStatus.funded
      · rw [if_pos hs] at h
        split at h
        · exact Except.noConfusion h
        · cases h
          constructor
          · intro _
            exact Or.inl hs
          · intro _
            split <;> simp
      · rw [if_neg hs] at h
        cases h
        simp [hs]

/-- C2 amended witness: instantiated at the "applied"-with-commission
request, whose stored document keeps the supplied commission. -/
theorem commission_populated_iff_funded_or_supplied_witness :
    create_loan sampleDB sampleToday pAppliedComm = Except.ok pAppliedComm ∧
    ((pAppliedComm.commission_amount ≠ none) ↔
      (pAppliedComm.status = LoanStatus.funded ∨
        pAppliedComm.commission_amount ≠ none)) := by
  have hOk : create_loan sampleDB sampleToday pAppliedComm =
      Except.ok pAppliedComm := by
    with_unfolding_all decide
  exact ⟨hOk,
    commission_populated_iff_funded_or_supplied sampleDB sampleToday
      pAppliedComm pAppliedComm hOk⟩

/-- C6. For every loan created with status "funded" and an explicitly
supplied `funded_date`, the stored `funded_date` is the supplied one:
the auto-fill with the current UTC date fires only when it is absent. -/
theorem funded_explicit_funded_date_kept
    (db : DB) (today : PyDate) (p d : Loan) (fd : PyDate)
    (h : create_loan db today p = Except.ok d)
    (hs : p.status = LoanStatus.funded)
    (hd : p.funded_date = some fd) :
    d.funded_date = some fd := by
  unfold create_loan at h
  split at h
  · exact Except.noConfusion h
  · split at h
    · exact Except.noConfusion h
    · rw [if_pos hs] at h
      split at h
      · exact Except.noConfusion h
      · cases h
        simp [hd]

/-- C7. For every loan created with status "funded" and no `partner_id`,
the stored `commission_amount` is 0.00. -/
theorem funded_no_partner_zero_commission
    (db : DB) (today : PyDate) (p d : Loan)
    (h : create_loan db today p = Except.ok d)
    (hs : p.status = LoanStatus.funded)
    (hp : p.partner_id = none) :
    d.commission_amount = some 0 := by
  have hrate : fundedRate db p.partner_id = Except.ok 0 := by
    simp [fundedRate, hp]
  unfold create_loan at h
  split at h
  · exact Except.noConfusion h
  · split at h
    · exact Except.noConfusion h
    · rw [if_pos hs, hrate] at h
      simp only [] at h
      cases h
      have hz := round2_mul_zero p.amount
      split <;> simp [hz, round2_zero]

/-- C6 witness data: an explicit funded date distinct from `sampleToday`. -/
def someDate : PyDate := ⟨2026, 1, 2⟩

/-- Funded loan request with no partner and an explicit `funded_date`. -/
def pFundedDate : Loan :=
  ⟨oidA, none, 1000, LoanStatus.funded, none, some someDate, none⟩

/-- The document `create_loan` persists for `pFundedDate`. -/
def fundedDateDoc : Loan :=
  ⟨oidA, none, 1000, LoanStatus.funded, none, some someDate, some 0⟩

/-- C6 witness: a funded request carrying `funded_date` 2026-01-02 is
stored with that date even though admission happens on `sampleToday`. -/
theorem funded_explicit_funded_date_kept_witness :
    create_loan sampleDB sampleToday pFundedDate = Except.ok fundedDateDoc ∧
    fundedDateDoc.funded_date = some someDate := by
  have hOk : create_loan sampleDB sampleToday pFundedDate =
      Except.ok fundedDateDoc := by
    with_unfolding_all decide
  exact ⟨hOk,
    funded_explicit_funded_date_kept sampleDB sampleToday pFundedDate
      fundedDateDoc someDate hOk (by decide) rfl⟩

/-- C7 witness: the funded, partner-less request `pFundedDate` is stored
with `commission_amount` 0. -/
theorem funded_no_partner_zero_commission_witness :
    create_loan sampleDB sampleToday pFundedDate = Except.ok fundedDateDoc ∧
    fundedDateDoc.commission_amount = some 0 := by
  have hOk : create_loan sampleDB sampleToday pFundedDate =
      Except.ok fundedDateDoc := by
    with_unfolding_all decide
  exact ⟨hOk,
    funded_no_partner_zero_commission sampleDB sampleToday pFundedDate
      fundedDateDoc hOk (by decide) rfl⟩

/-- C1. For every loan created with status "funded" whose `partner_id` is
a well-formed ObjectId keying a stored partner document that carries
`commission_rate` r, the stored `commission_amount` is
round(amount * r / 100, 2). -/
theorem funded_commission_formula
    (db : DB) (today : PyDate) (p : Loan) (pid : String) (pd : PartnerDoc)
    (r : ℚ) (d : Loan)
    (h : create_loan db today p = Except.ok d)
    (hs : p.status = LoanStatus.funded)
    (hp : p.partner_id = some pid)
    (hv : isValidObjectId pid = true)
    (hf : db.findPartner pid = some pd)
    (hr : pd.commission_rate = some r) :
    d.commission_amount = some (round2 (p.amount * r / 100)) := by
  have hne := isValidObjectId_ne_empty hv
  have hrate : fundedRate db p.partner_id = Except.ok r := by
    simp [fundedRate, hp, hne, objectIdParse, hv, hf, hr, pyFloatOr_eq]
  unfold create_loan at h
  split at h
  · exact Except.noConfusion h
  · split at h
    · exact Except.noConfusion h
    · rw [if_pos hs, hrate] at h
      simp only [] at h
      cases h
      split <;> rfl

/-- C1 witness: the funded request `pFunded` (amount 1000, partner rate
5.0) is stored with `commission_amount` 50.00, matching the formula. -/
theorem funded_commission_formula_witness :
    create_loan sampleDB sampleToday pFunded = Except.ok fundedDoc ∧
    fundedDoc.commission_amount = some (round2 (pFunded.amount * 5 / 100)) ∧
    fundedDoc.commission_amount = some 50 := by
  have hOk : create_loan sampleDB sampleToday pFunded = Except.ok fundedDoc := by
    with_unfolding_all decide
  exact ⟨hOk,
    funded_commission_formula sampleDB sampleToday pFunded oidB ⟨some 5⟩ 5
      fundedDoc hOk (by decide) rfl (by decide) (by decide) rfl,
    rfl⟩

/-- C3 counterexample: with an empty database (so no customer exists at
all) and `customer_id = ""` — a string pydantic accepts — the truthiness
guard `if payload.customer_id:` skips the reference check and the loan is
admitted, returning an identifier instead of HTTP 400. -/
theorem missing_customer_rejected_cex :
    (⟨[], []⟩ : DB).customers = [] ∧
    create_loan ⟨[], []⟩ sampleToday pEmptyCust = Except.ok pEmptyCust := by
  exact ⟨rfl, by with_unfolding_all decide⟩

/-- C3 amended: for every request whose `customer_id` is non-empty and
matches no stored customer (malformed or simply absent), `create_loan`
fails with HTTP 400, detail "Invalid customer_id format", and no document
is persisted. -/
theorem missing_customer_rejected (db : DB) (today : PyDate) (p : Loan)
    (hne : p.customer_id ≠ "")
    (hmiss : db.customers.contains p.customer_id = false) :
    create_loan db today p =
      Except.error (ApiErr.badRequest invalidCustomerFormatDetail) := by
  have hchk : checkCustomer db p.customer_id =
      Except.error (ApiErr.badRequest invalidCustomerFormatDetail) := by
    unfold checkCustomer
    rw [if_neg hne]
    cases hp : tryCustomerCheck db p.customer_id with
    | error e => rfl
    | ok u =>
      exfalso
      unfold tryCustomerCheck at hp
      cases hq : objectIdParse p.customer_id with
      | none => rw [hq] at hp; exact Except.noConfusion hp
      | some oid =>
        rw [hq] at hp
        have hoid := objectIdParse_some hq
        subst hoid
        have hm2 : ¬ p.customer_id ∈ db.customers := by simpa using hmiss
        simp [DB.customerExists, hm2] at hp
  unfold create_loan
  rw [hchk]

/-- C3 amended witness: a malformed, non-empty `customer_id` ("zzz",
present in no customer collection) is rejected with the 400 error. -/
theorem missing_customer_rejected_witness :
    (pBadCust.customer_id ≠ "" ∧
      sampleDB.customers.contains pBadCust.customer_id = false) ∧
    create_loan sampleDB sampleToday pBadCust =
      Except.error (ApiErr.badRequest invalidCustomerFormatDetail) := by
  exact ⟨⟨by decide, by decide⟩,
    missing_customer_rejected sampleDB sampleToday pBadCust (by decide)
      (by decide)⟩

/-- C4 counterexample: a malformed `customer_id` ("zzz") and a well-formed
but non-existent one (`oidMissing`) produce the same error message,
"Invalid customer_id format" — the `except Exception` clause catches the
not-found `HTTPException` raised inside the `try` block, so the two cases
are not distinguished. -/
theorem reference_error_messages_cex :
    create_loan sampleDB sampleToday pBadCust =
      create_loan sampleDB sampleToday pMissCust ∧
    create_loan sampleDB sampleToday pBadCust =
      Except.error (ApiErr.badRequest invalidCustomerFormatDetail) ∧
    isValidObjectId pBadCust.customer_id = false ∧
    isValidObjectId pMissCust.customer_id = true := by
  refine ⟨?_, ?_, by decide, by decide⟩ <;> with_unfolding_all decide

/-- C4 amended: the message does not distinguish format from not-found:
once the customer check passes, any truthy `partner_id` that matches no
stored partner — malformed or simply absent — yields HTTP 400 with the
one collapsed detail "Invalid partner_id format" (and analogously
"Invalid customer_id format" for the customer reference). -/
theorem reference_error_message_collapsed
    (db : DB) (today : PyDate) (p : Loan) (pid : String)
    (hc : checkCustomer db p.customer_id = Except.ok ())
    (hp : p.partner_id = some pid)
    (hne : pid ≠ "")
    (hnf : db.findPartner pid = none) :
    create_loan db today p =
      Except.error (ApiErr.badRequest invalidPartnerFormatDetail) := by
  have hchk : checkPartner db p.partner_id =
      Except.error (ApiErr.badRequest invalidPartnerFormatDetail) := by
    unfold checkPartner
    simp only [hp]
    rw [if_neg hne]
    cases hq : tryPartnerCheck db pid with
    | error e => rfl
    | ok u =>
      exfalso
      unfold tryPartnerCheck at hq
      cases hr : objectIdParse pid with
      | none => rw [hr] at hq; exact Except.noConfusion hq
      | some oid =>
        have hoid := objectIdParse_some hr
        subst hoid
        simp only [hr] at hq
        simp [hnf] at hq
  unfold create_loan
  rw [hc, hchk]

/-- C4 amended witness: with the customer check passing, a well-formed
`partner_id` matching no partner document is rejected with the collapsed
"Invalid partner_id format" message. -/
theorem reference_error_message_collapsed_witness :
    (checkCustomer sampleDB pMissPartner.customer_id = Except.ok () ∧
      sampleDB.findPartner oidMissing = none) ∧
    create_loan sampleDB sampleToday pMissPartner =
      Except.error (ApiErr.badRequest invalidPartnerFormatDetail) := by
  exact ⟨⟨by decide, by decide⟩,
    reference_error_message_collapsed sampleDB sampleToday pMissPartner
      oidMissing (by decide) rfl (by decide) (by decide)⟩

/-- C8. For every loan created with status "funded" whose `partner_id` is
a well-formed ObjectId keying a stored partner document that lacks a
`commission_rate` field, admission succeeds and the stored
`commission_amount` is 0.00 (rate treated as 0, not as an error). -/
theorem funded_partner_without_rate
    (db : DB) (today : PyDate) (p : Loan) (pid : String) (pd : PartnerDoc)
    (hc : checkCustomer db p.customer_id = Except.ok ())
    (hs : p.status = LoanStatus.funded)
    (hp : p.partner_id = some pid)
    (hv : isValidObjectId pid = true)
    (hf : db.findPartner pid = some pd)
    (hr : pd.commission_rate = none) :
    Except.map (fun d => d.commission_amount) (create_loan db today p) =
      Except.ok (some 0) := by
  have hne := isValidObjectId_ne_empty hv
  have hpchk : checkPartner db p.partner_id = Except.ok () := by
    simp [checkPartner, hp, hne, tryPartnerCheck, objectIdParse, hv, hf]
  have hrate : fundedRate db p.partner_id = Except.ok 0 := by
    simp [fundedRate, hp, hne, objectIdParse, hv, hf, hr]
  unfold create_loan
  simp only [hc, hpchk, if_pos hs, hrate]
  split <;> simp [Except.map, round2_mul_zero, round2_zero]

/-- C8 witness: funded request referencing partner `oidC`, whose stored
document has no `commission_rate`; admission succeeds with commission 0. -/
theorem funded_partner_without_rate_witness :
    (checkCustomer sampleDB pFundedNoRate.customer_id = Except.ok () ∧
      sampleDB.findPartner oidC = some ⟨none⟩) ∧
    Except.map (fun d => d.commission_amount)
      (create_loan sampleDB sampleToday pFundedNoRate) =
      Except.ok (some 0) := by
  exact ⟨⟨by decide, by decide⟩,
    funded_partner_without_rate sampleDB sampleToday pFundedNoRate oidC
      ⟨none⟩ (by decide) (by decide) rfl (by decide) (by decide) rfl⟩

/-- C9. Every loan-creation payload with `amount` ≤ 0 is rejected by
pydantic (`gt=0` on `amount`) with a 422 validation error naming the
field, before the handler body runs: the outcome is the same for every
database state, so no reference lookup happens and nothing is
persisted. -/
theorem nonpositive_amount_rejected (db : DB) (today : PyDate)
    (raw : RawLoan) (h : raw.amount ≤ 0) :
    postLoan db today raw = Except.error (ApiErr.unprocessable "amount") := by
  unfold postLoan validateLoan
  rw [if_pos h]

/-- C9 witness: a funded request with `amount` 0 is rejected as a
validation error on "amount" (shown here against `sampleDB`; the theorem
gives the same outcome for every database). -/
theorem nonpositive_amount_rejected_witness :
    rawZeroAmount.amount ≤ 0 ∧
    postLoan sampleDB sampleToday rawZeroAmount =
      Except.error (ApiErr.unprocessable "amount") := by
  exact ⟨by decide,
    nonpositive_amount_rejected sampleDB sampleToday rawZeroAmount
      (by decide)⟩

/-- C10. For every loan created with status "funded", a caller-supplied
`commission_amount` is ignored: replacing it with any other value yields
the very same persisted document, whose `commission_amount` is the
freshly computed round(amount * rate / 100, 2) with the rate looked up
from the referenced partner. -/
theorem supplied_commission_ignored
    (db : DB) (today : PyDate) (p : Loan) (c : Option ℚ) (d : Loan)
    (hs : p.status = LoanStatus.funded)
    (h : create_loan db today p = Except.ok d) :
    create_loan db today { p with commission_amount := c } = Except.ok d ∧
    d.commission_amount =
      some (round2 (p.amount * effectiveRate db p.partner_id / 100)) := by
  unfold create_loan at h ⊢
  dsimp only at h ⊢
  cases hc : checkCustomer db p.customer_id with
  | error e =>
    rw [hc] at h
    exact Except.noConfusion h
  | ok u =>
    cases u
    simp only [hc] at h ⊢
    cases hq : checkPartner db p.partner_id with
    | error e =>
      simp only [hq] at h
      exact Except.noConfusion h
    | ok v =>
      cases v
      simp only [hq] at h ⊢
      rw [if_pos hs] at h
      rw [if_pos hs]
      cases hr : fundedRate db p.partner_id with
      | error e =>
        simp only [hr] at h
        exact Except.noConfusion h
      | ok rate =>
        simp only [hr] at h ⊢
        cases h
        refine ⟨rfl, ?_⟩
        rw [fundedRate_ok_effectiveRate hr]
        split <;> rfl

/-- C10 witness: the funded request `pFunded` with a caller-supplied
`commission_amount` of 999 is stored as the same document `fundedDoc`
with the computed commission (50), ignoring the 999. -/
theorem supplied_commission_ignored_witness :
    create_loan sampleDB sampleToday pFunded = Except.ok fundedDoc ∧
    create_loan sampleDB sampleToday
      { pFunded with commission_amount := some 999 } = Except.ok fundedDoc ∧
    fundedDoc.commission_amount =
      some (round2 (pFunded.amount *
        effectiveRate sampleDB pFunded.partner_id / 100)) := by
  have hOk : create_loan sampleDB sampleToday pFunded = Except.ok fundedDoc := by
    with_unfolding_all decide
  obtain ⟨h1, h2⟩ :=
    supplied_commission_ignored sampleDB sampleToday pFunded (some 999)
      fundedDoc (by decide) hOk
  exact ⟨hOk, h1, h2⟩

end LoanTracker
